import Mathlib

/-!
Verification development for the PCB Gerber parsing core
(`GerberParse.py` and `GerberSilkscreenParser.py`).

Python floats are modelled by `ℚ` (exact rational arithmetic), Python
strings by `String`, Python lists by `List`.  Fallible whole-file reads
are modelled by `Option (List String)` (`none` = I/O failure).  The
comparison `sqrt d2 < 5.0` of the clusterer is modelled by the equivalent
`d2 < 25` on squared distances.
-/

namespace PCBSpec

/-- Numeric value of a decimal digit character (`'0'` has code 48). -/
def digitVal (c : Char) : ℕ := c.toNat - 48

/-- Python `int(s)` on a string of decimal digits: a base-10 left fold. -/
def pyIntOfDigits (s : String) : ℕ :=
  s.data.foldl (fun n c => 10 * n + digitVal c) 0

namespace GerberParse

/-- `GerberParser._convert_coordinate`: empty digit string decodes to `0.0`;
otherwise interpret the digits as an integer and divide by `10 ^ decimals`. -/
def convert_coordinate (coord_str : String) (decimals : ℕ) : ℚ :=
  if coord_str.length = 0 then 0
  else (pyIntOfDigits coord_str : ℚ) / ((10 : ℚ) ^ decimals)

/-- The per-coordinate decode path of `GerberParser._extract_coordinates`
(lines 140-146): fixed-point conversion followed by the inch-to-mm scaling
`x *= 25.4` (`25.4 = 254/10`) applied exactly when the current unit is
`'INCH'`. -/
def decodeCoordinate (digits : String) (decimals : ℕ) (unit : String) : ℚ :=
  let v := convert_coordinate digits decimals
  if unit = "INCH" then v * (254 / 10) else v

end GerberParse

namespace GTO

/-- `GTO_Parser._convert_coordinate` (textually identical to the outline
parser's conversion). -/
def convert_coordinate (coord_str : String) (decimals : ℕ) : ℚ :=
  if coord_str.length = 0 then 0
  else (pyIntOfDigits coord_str : ℚ) / ((10 : ℚ) ^ decimals)

/-- The per-coordinate decode path of `GTO_Parser._parse_drawing_commands`
(lines 143-149): conversion plus the inch-to-mm scaling. -/
def decodeCoordinate (digits : String) (decimals : ℕ) (unit : String) : ℚ :=
  let v := convert_coordinate digits decimals
  if unit = "INCH" then v * (254 / 10) else v

end GTO

/-- The base-10 left fold of Python's `int` agrees with the standard
positional value of the digit list (little-endian `Nat.ofDigits`). -/
theorem foldl_digits_eq_ofDigits (l : List Char) (a : ℕ) :
    l.foldl (fun n c => 10 * n + digitVal c) a =
      Nat.ofDigits 10 ((l.map digitVal).reverse) + a * 10 ^ l.length := by
  induction l generalizing a with
  | nil => simp [Nat.ofDigits_nil]
  | cons c t ih =>
    simp only [List.foldl_cons, ih, List.map_cons, List.reverse_cons,
      Nat.ofDigits_append, List.length_reverse, List.length_map,
      Nat.ofDigits_singleton, List.length_cons]
    ring

/-- `pyIntOfDigits` computes the positional value of the digit string. -/
theorem pyIntOfDigits_eq_ofDigits (s : String) :
    pyIntOfDigits s = Nat.ofDigits 10 ((s.data.map digitVal).reverse) := by
  have h := foldl_digits_eq_ofDigits s.data 0
  simpa [pyIntOfDigits] using h

/-- Python's `str.strip()` with no argument: remove leading and trailing
whitespace. -/
def pyStrip (s : String) : String :=
  String.mk
    (((s.data.dropWhile Char.isWhitespace).reverse.dropWhile
        Char.isWhitespace).reverse)

/-- Python's `str.startswith`: does `needle` occur as the leading
characters of `hay`? -/
def charsLeadWith : List Char → List Char → Bool
  | [], _ => true
  | _ :: _, [] => false
  | a :: as, b :: bs => a == b && charsLeadWith as bs

/-- Python's substring containment test `needle in hay`. -/
def charsContain (needle : List Char) : List Char → Bool
  | [] => charsLeadWith needle []
  | c :: t => charsLeadWith needle (c :: t) || charsContain needle t

/-- Greedy maximal run of decimal digits at the head of the character
list, together with the remainder (the `\d+` of the token patterns). -/
def takeDigits : List Char → List Char × List Char
  | [] => ([], [])
  | c :: cs =>
    if c.isDigit then
      let (ds, rest) := takeDigits cs
      (c :: ds, rest)
    else ([], c :: cs)

/-- Attempt to match the regex `X(\d+)Y(\d+)D(\d+)` at the head of the
character list; on success return the three digit groups and the
remainder after the match.  (The groups are separated by the non-digit
letters `Y`/`D`, so greedy matching with backtracking coincides with
taking the maximal digit run before each letter.) -/
def matchXYD (l : List Char) : Option ((String × String × String) × List Char) :=
  match l with
  | 'X' :: cs =>
    let (xs, r1) := takeDigits cs
    if xs.isEmpty then none
    else
      match r1 with
      | 'Y' :: cs2 =>
        let (ys, r2) := takeDigits cs2
        if ys.isEmpty then none
        else
          match r2 with
          | 'D' :: cs3 =>
            let (ds, r3) := takeDigits cs3
            if ds.isEmpty then none
            else some ((String.mk xs, String.mk ys, String.mk ds), r3)
          | _ => none
      | _ => none
  | _ => none

/-- `re.findall(r'X(\d+)Y(\d+)D(\d+)', line)`: leftmost non-overlapping
matches, scanning left to right.  Fueled recursion; every successful
match consumes at least one character, so fuel = input length suffices. -/
def findallXYD : ℕ → List Char → List (String × String × String)
  | 0, _ => []
  | _ + 1, [] => []
  | fuel + 1, c :: cs =>
    match matchXYD (c :: cs) with
    | some (m, rest) => m :: findallXYD fuel rest
    | none => findallXYD fuel cs

/-- All matches of the coordinate-token pattern in a line. -/
def findall (line : String) : List (String × String × String) :=
  findallXYD line.data.length line.data

/-- The anchored match `re.match(r'%FSLAX(\d)(\d)Y(\d)(\d)', line)` used
by both parsers for the format directive: returns the four captured
digits on success. -/
def fslaxMatch (line : String) : Option (ℕ × ℕ × ℕ × ℕ) :=
  match line.data with
  | '%' :: 'F' :: 'S' :: 'L' :: 'A' :: 'X' :: a :: b :: 'Y' :: c :: d :: _ =>
    if a.isDigit && b.isDigit && c.isDigit && d.isDigit then
      some (digitVal a, digitVal b, digitVal c, digitVal d)
    else none
  | _ => none

/-- Python `min` on a non-empty list of rationals: a left fold from the
first element (0 for the empty list, which the sources never reach). -/
def listMin : List ℚ → ℚ
  | [] => 0
  | x :: xs => xs.foldl min x

/-- Python `max` on a non-empty list of rationals: a left fold from the
first element (0 for the empty list, which the sources never reach). -/
def listMax : List ℚ → ℚ
  | [] => 0
  | x :: xs => xs.foldl max x

namespace GerberParse

/-- `GerberCoordinate` of `GerberParse.py`. -/
structure GerberCoordinate where
  x : ℚ
  y : ℚ
  command : String
deriving DecidableEq

/-- `BoardDimensions` of `GerberParse.py`. -/
structure BoardDimensions where
  min_x : ℚ
  max_x : ℚ
  min_y : ℚ
  max_y : ℚ
  width : ℚ
  height : ℚ
deriving DecidableEq

/-- The mutable per-file state of `GerberParser`: current unit, current
format digit counts, and the coordinates accumulated so far. -/
structure ParserState where
  unit : String
  format_x : ℕ
  format_y : ℕ
  coordinates : List GerberCoordinate
deriving DecidableEq

/-- `GerberParser.__init__`: unit defaults to `'INCH'`, format to (2,2),
no coordinates. -/
def initState : ParserState :=
  { unit := "INCH", format_x := 2, format_y := 2, coordinates := [] }

/-- The unit-directive step of `GerberParser.parse` (lines 93-100):
`line.startswith('%MOIN')` sets inch, elif `line.startswith('%MOMM')`
sets millimeter, otherwise the unit is unchanged. -/
def unitUpdate (line : String) (unit : String) : String :=
  if charsLeadWith "%MOIN".data line.data then "INCH"
  else if charsLeadWith "%MOMM".data line.data then "MM"
  else unit

/-- The format-directive step of `GerberParser.parse` (lines 103-109):
on a line starting with `%FSLAX`, an anchored regex match sets
`format_x` to the second captured digit and `format_y` to the fourth;
a failed match leaves the state untouched. -/
def fslaxUpdate (line : String) (st : ParserState) : ParserState :=
  if charsLeadWith "%FSLAX".data line.data then
    match fslaxMatch line with
    | some (_, fx, _, fy) => { st with format_x := fx, format_y := fy }
    | none => st
  else st

/-- `GerberParser._extract_coordinates`: for every token found in the
line, decode both coordinates with the current format, scale by 25.4 if
the current unit is inch, map the D-code through
`{'01': 'DRAW', '02': 'MOVE', '03': 'FLASH'}` with default `'D'+code`,
and append. -/
def extract_coordinates (line : String) (st : ParserState) : ParserState :=
  (findall line).foldl
    (fun st m =>
      let x := decodeCoordinate m.1 st.format_x st.unit
      let y := decodeCoordinate m.2.1 st.format_y st.unit
      let cmd :=
        if m.2.2 = "01" then "DRAW"
        else if m.2.2 = "02" then "MOVE"
        else if m.2.2 = "03" then "FLASH"
        else "D" ++ m.2.2
      { st with coordinates := st.coordinates ++ [⟨x, y, cmd⟩] })
    st

/-- One iteration of the line loop of `GerberParser.parse`: strip the
line, skip it if blank, otherwise apply the unit step, the format step
and coordinate extraction in order. -/
def processLine (st : ParserState) (rawLine : String) : ParserState :=
  let line := pyStrip rawLine
  if line = "" then st
  else
    let st1 := { st with unit := unitUpdate line st.unit }
    let st2 := fslaxUpdate line st1
    extract_coordinates line st2

/-- The whole line loop of `GerberParser.parse` over the file's lines. -/
def parseLines (lines : List String) : ParserState :=
  lines.foldl processLine initState

/-- `GerberParser._calculate_dimensions`: `None` while the coordinate
list is empty (the early `return`), otherwise min/max of the `x` and `y`
projections with derived width and height. -/
def calculate_dimensions (coords : List GerberCoordinate) :
    Option BoardDimensions :=
  if coords = [] then none
  else
    let xs := coords.map (·.x)
    let ys := coords.map (·.y)
    some
      { min_x := listMin xs, max_x := listMax xs
        min_y := listMin ys, max_y := listMax ys
        width := listMax xs - listMin xs, height := listMax ys - listMin ys }

/-- `GerberParser.parse` with the whole-file read modelled as
`Option (List String)` (`none` = unreadable file, the `except` branch):
returns `True` exactly when at least one coordinate was extracted. -/
def parse (file : Option (List String)) : Bool :=
  match file with
  | none => false
  | some lines => !(parseLines lines).coordinates.isEmpty

end GerberParse

namespace GTO

/-- `DrawingElement` of `GerberSilkscreenParser.py`. -/
structure DrawingElement where
  x : ℚ
  y : ℚ
  element_type : String
  aperture : String
deriving DecidableEq

instance : Inhabited DrawingElement := ⟨⟨0, 0, "", ""⟩⟩

/-- `TextObject` of `GerberSilkscreenParser.py`. -/
structure TextObject where
  text : String
  x : ℚ
  y : ℚ
  size : ℚ
  rotation : ℚ
  mirrored : Bool
deriving DecidableEq

instance : Inhabited TextObject := ⟨⟨"", 0, 0, 0, 0, false⟩⟩

/-- The mutable per-file state of `GTO_Parser`. -/
structure GTOState where
  unit : String
  format_x : ℕ
  format_y : ℕ
  drawing_elements : List DrawingElement
deriving DecidableEq

/-- `GTO_Parser.__init__`: unit defaults to `'INCH'`, format to (2,5),
no drawing elements. -/
def initState : GTOState :=
  { unit := "INCH", format_x := 2, format_y := 5, drawing_elements := [] }

/-- The unit-detection step of `GTO_Parser.parse` (lines 104-107): a
substring containment test (`'%MOIN' in line` / elif `'%MOMM' in line`),
not an anchored prefix test. -/
def unitUpdate (line : String) (unit : String) : String :=
  if charsContain "%MOIN".data line.data then "INCH"
  else if charsContain "%MOMM".data line.data then "MM"
  else unit

/-- The format-directive step of `GTO_Parser.parse` (lines 110-114),
identical to the outline parser's. -/
def fslaxUpdate (line : String) (st : GTOState) : GTOState :=
  if charsLeadWith "%FSLAX".data line.data then
    match fslaxMatch line with
    | some (_, fx, _, fy) => { st with format_x := fx, format_y := fy }
    | none => st
  else st

/-- `GTO_Parser._parse_drawing_commands`: decode every token of the line
with the current state; `'03'` maps to `'flash'`, `'02'` to `'move'`,
anything else to `'draw'`; the raw code is kept in `aperture`. -/
def parse_drawing_commands (line : String) (st : GTOState) : GTOState :=
  (findall line).foldl
    (fun st m =>
      let x := decodeCoordinate m.1 st.format_x st.unit
      let y := decodeCoordinate m.2.1 st.format_y st.unit
      let cmd_type :=
        if m.2.2 = "03" then "flash"
        else if m.2.2 = "02" then "move"
        else "draw"
      { st with drawing_elements :=
          st.drawing_elements ++ [⟨x, y, cmd_type, m.2.2⟩] })
    st

/-- One iteration of the line loop of `GTO_Parser.parse`. -/
def processLine (st : GTOState) (rawLine : String) : GTOState :=
  let line := pyStrip rawLine
  if line = "" then st
  else
    let st1 := { st with unit := unitUpdate line st.unit }
    let st2 := fslaxUpdate line st1
    parse_drawing_commands line st2

/-- The whole line loop of `GTO_Parser.parse`. -/
def parseLines (lines : List String) : GTOState :=
  lines.foldl processLine initState

/-- The distance test of `_cluster_elements` (lines 200-201).  The source
compares `sqrt((elem.x - other.x)^2 + (elem.y - other.y)^2) < 5.0`; on the
exact rationals this is equivalent to comparing the squared distance with
`25`. -/
def close (a b : DrawingElement) : Bool :=
  decide ((a.x - b.x) ^ 2 + (a.y - b.y) ^ 2 < 25)

/-- The inner absorption scan of `GTO_Parser._cluster_elements`
(lines 194-204) for one open cluster: `elem` is the seed `points[i]`,
`js` the later indices in order.  Faithful to the source, the distance in
the innermost `for cluster_elem in cluster` loop is computed between
`elem` and the candidate — `cluster_elem` does not occur in the distance
expression — so that loop succeeds on its first iteration or not at
all. -/
def buildCluster (elems : List DrawingElement) (elem : DrawingElement) :
    List ℕ → List DrawingElement → List ℕ → List DrawingElement × List ℕ
  | [], cluster, used => (cluster, used)
  | j :: js, cluster, used =>
    if j ∈ used then buildCluster elems elem js cluster used
    else if cluster.any (fun _cluster_elem => close elem (elems.getD j default))
    then buildCluster elems elem js (cluster ++ [elems.getD j default]) (j :: used)
    else buildCluster elems elem js cluster used

/-- The outer loop of `_cluster_elements` (lines 185-207): walk indices
in order, skip indices already used, grow a cluster from each unused
seed, and append the closed cluster to the output only when it has more
than 2 members (`len(cluster) > 2`).  Members of discarded clusters stay
marked as used. -/
def clusterLoop (elems : List DrawingElement) :
    List ℕ → List ℕ → List (List DrawingElement) → List (List DrawingElement)
  | [], _, clusters => clusters
  | i :: is, used, clusters =>
    if i ∈ used then clusterLoop elems is used clusters
    else
      let bc := buildCluster elems (elems.getD i default)
        (List.range' (i + 1) (elems.length - (i + 1)))
        [elems.getD i default] (i :: used)
      if bc.1.length > 2 then clusterLoop elems is bc.2 (clusters ++ [bc.1])
      else clusterLoop elems is bc.2 clusters

/-- The retained clusters of `_cluster_elements`.  (The early return on an
empty element list coincides with running the loop on an empty range.) -/
def clustersOf (elems : List DrawingElement) : List (List DrawingElement) :=
  clusterLoop elems (List.range elems.length) [] []

/-- Rounding to the nearest integer with ties to even, the rounding used
by Python's fixed-point float formatting, modelled over `ℚ`. -/
def roundHalfEven (q : ℚ) : ℤ :=
  if q - ⌊q⌋ < 1 / 2 then ⌊q⌋
  else if q - ⌊q⌋ > 1 / 2 then ⌊q⌋ + 1
  else if ⌊q⌋ % 2 = 0 then ⌊q⌋ else ⌊q⌋ + 1

/-- Python's one-decimal fixed-point format `f"{q:.1f}"`, modelled over
`ℚ`. -/
def fmt1 (q : ℚ) : String :=
  let n := roundHalfEven (q * 10)
  if n < 0 then
    "-" ++ toString ((-n).toNat / 10) ++ "." ++ toString ((-n).toNat % 10)
  else toString (n.toNat / 10) ++ "." ++ toString (n.toNat % 10)

/-- The synthetic placeholder designator text of `_cluster_elements`
line 222 (an f-string rendering the centroid to one decimal place). -/
def posPlaceholder (x y : ℚ) : String :=
  "Pos(" ++ fmt1 x ++ "," ++ fmt1 y ++ ")"

/-- Lines 210-229 of `_cluster_elements`: one retained cluster becomes a
`TextObject` with the centroid as position, `max(width, height)` of the
cluster spread as size, the placeholder text, rotation 0, not
mirrored. -/
def clusterToTextObject (cluster : List DrawingElement) : TextObject :=
  let x_avg := (cluster.map (·.x)).sum / (cluster.length : ℚ)
  let y_avg := (cluster.map (·.y)).sum / (cluster.length : ℚ)
  let width := listMax (cluster.map (·.x)) - listMin (cluster.map (·.x))
  let height := listMax (cluster.map (·.y)) - listMin (cluster.map (·.y))
  { text := posPlaceholder x_avg y_avg
    x := x_avg
    y := y_avg
    size := max width height
    rotation := 0
    mirrored := false }

/-- The sort key comparison of line 232 (`key=lambda t: (t.x, t.y)`):
lexicographic order on the coordinate pair. -/
def textKeyLe (a b : TextObject) : Bool :=
  decide (a.x < b.x) || (decide (a.x = b.x) && decide (a.y ≤ b.y))

/-- `_cluster_elements` end to end: retained clusters mapped to text
objects, then sorted ascending by `(x, y)` (Python's `list.sort` is a
stable sort, modelled by `mergeSort`). -/
def cluster_elements (elems : List DrawingElement) : List TextObject :=
  ((clustersOf elems).map clusterToTextObject).mergeSort textKeyLe

/-- `GTO_Parser.match_with_csv`: returns `False` and changes nothing when
either list is empty; otherwise overwrites the text of the i-th object
with the i-th CSV name for every `i < len(csv_designators)` (the loop
breaks at that bound), leaves later objects untouched, and returns
`True`.  Only the `text` field is assigned. -/
def match_with_csv (text_objects : List TextObject)
    (csv_designators : List (String × ℚ × ℚ)) : Bool × List TextObject :=
  if text_objects.isEmpty || csv_designators.isEmpty then
    (false, text_objects)
  else
    (true, text_objects.mapIdx (fun i obj =>
      if i < csv_designators.length then
        { obj with text := (csv_designators.getD i ("", 0, 0)).1 }
      else obj))

/-- `GTO_Parser.parse` with the file read modelled as an option
(`none` = unreadable file, the `except` branch): scan all lines, cluster,
and return `True` exactly when at least one text cluster was found. -/
def parse (file : Option (List String)) : Bool :=
  match file with
  | none => false
  | some lines =>
    decide (0 < (cluster_elements (parseLines lines).drawing_elements).length)

end GTO

/-- C2: for every non-empty string of decimal digits `d` and decimal-place
count `p`, the outline coordinate decoder returns `int(d) / 10^p` when the
unit is not inch, and `(int(d) / 10^p) * 25.4` when the unit is inch; in
particular `"00100"` with 2 decimal places yields `1.00` in millimeter mode
and `25.4` in inch mode. -/
theorem C2_decode_unit_scaling (d : String) (p : ℕ) (hne : d ≠ "") :
    (∀ u : String, u ≠ "INCH" →
      GerberParse.decodeCoordinate d p u =
        ((Nat.ofDigits 10 ((d.data.map digitVal).reverse) : ℕ) : ℚ)
          / (10 : ℚ) ^ p) ∧
    GerberParse.decodeCoordinate d p "INCH" =
      (((Nat.ofDigits 10 ((d.data.map digitVal).reverse) : ℕ) : ℚ)
          / (10 : ℚ) ^ p) * (254 / 10) ∧
    GerberParse.decodeCoordinate "00100" 2 "MM" = 1 ∧
    GerberParse.decodeCoordinate "00100" 2 "INCH" = 254 / 10 := by
  have hlen : d.length ≠ 0 := fun h => hne (String.ext (by
    have : d.data.length = 0 := h
    simpa using List.length_eq_zero.mp this))
  have hconv : GerberParse.convert_coordinate d p =
      ((Nat.ofDigits 10 ((d.data.map digitVal).reverse) : ℕ) : ℚ)
        / (10 : ℚ) ^ p := by
    simp only [GerberParse.convert_coordinate, if_neg hlen,
      pyIntOfDigits_eq_ofDigits]
  have hc : GerberParse.convert_coordinate "00100" 2 = 1 := by
    rw [GerberParse.convert_coordinate, if_neg (by decide)]
    norm_num [show pyIntOfDigits "00100" = 100 from rfl]
  refine ⟨?_, ?_, ?_, ?_⟩
  · intro u hu
    simp only [GerberParse.decodeCoordinate, if_neg hu, hconv]
  · simp [GerberParse.decodeCoordinate, hconv]
  · simp only [GerberParse.decodeCoordinate, hc]
    rw [if_neg (by decide)]
  · simp only [GerberParse.decodeCoordinate, hc]
    norm_num

/-- Witness for C2 at the concrete digit string `"00100"`, `p = 2`,
millimeter mode. -/
theorem C2_decode_unit_scaling_witness :
    GerberParse.decodeCoordinate "00100" 2 "MM" =
      ((Nat.ofDigits 10 (("00100".data.map digitVal).reverse) : ℕ) : ℚ)
        / (10 : ℚ) ^ 2 :=
  (C2_decode_unit_scaling "00100" 2 (by decide)).1 "MM" (by decide)

/-- C3: for every decimal-place count `p` and every unit string `u`,
decoding the empty digit string is total (never an error) and returns
exactly `0.0`, in both the outline decoder and the silkscreen decoder,
before and after the unit scaling step. -/
theorem C3_empty_digits_zero (p : ℕ) (u : String) :
    GerberParse.convert_coordinate "" p = 0 ∧
    GTO.convert_coordinate "" p = 0 ∧
    GerberParse.decodeCoordinate "" p u = 0 ∧
    GTO.decodeCoordinate "" p u = 0 := by
  have h1 : GerberParse.convert_coordinate "" p = 0 := by
    simp [GerberParse.convert_coordinate]
  have h2 : GTO.convert_coordinate "" p = 0 := by
    simp [GTO.convert_coordinate]
  refine ⟨h1, h2, ?_, ?_⟩
  · simp [GerberParse.decodeCoordinate, h1]
  · simp [GTO.decodeCoordinate, h2]

/-- A left `min`-fold is bounded by its initial value. -/
theorem foldl_min_le_init : ∀ (l : List ℚ) (a : ℚ), l.foldl min a ≤ a
  | [], a => le_refl a
  | x :: xs, a =>
    le_trans (foldl_min_le_init xs (min a x)) (min_le_left a x)

/-- A left `min`-fold is bounded by every list member. -/
theorem foldl_min_le_mem :
    ∀ (l : List ℚ) (a x : ℚ), x ∈ l → l.foldl min a ≤ x
  | x' :: xs, a, x, h => by
    rw [List.foldl_cons]
    rcases List.mem_cons.mp h with h1 | h2
    · subst h1
      exact le_trans (foldl_min_le_init xs (min a x)) (min_le_right a x)
    · exact foldl_min_le_mem xs (min a x') x h2

/-- A left `min`-fold is the initial value or some list member. -/
theorem foldl_min_eq_init_or_mem :
    ∀ (l : List ℚ) (a : ℚ), l.foldl min a = a ∨ l.foldl min a ∈ l
  | [], _ => Or.inl rfl
  | x :: xs, a => by
    rcases foldl_min_eq_init_or_mem xs (min a x) with h | h
    · rcases min_cases a x with ⟨h1, _⟩ | ⟨h1, _⟩
      · exact Or.inl (by rw [List.foldl_cons, h, h1])
      · exact Or.inr (by
          rw [List.foldl_cons, h, h1]; exact List.mem_cons_self x xs)
    · exact Or.inr (List.mem_cons_of_mem x h)

/-- A left `max`-fold dominates its initial value. -/
theorem le_foldl_max_init : ∀ (l : List ℚ) (a : ℚ), a ≤ l.foldl max a
  | [], a => le_refl a
  | x :: xs, a =>
    le_trans (le_max_left a x) (le_foldl_max_init xs (max a x))

/-- A left `max`-fold dominates every list member. -/
theorem le_foldl_max_mem :
    ∀ (l : List ℚ) (a x : ℚ), x ∈ l → x ≤ l.foldl max a
  | x' :: xs, a, x, h => by
    rw [List.foldl_cons]
    rcases List.mem_cons.mp h with h1 | h2
    · subst h1
      exact le_trans (le_max_right a x) (le_foldl_max_init xs (max a x))
    · exact le_foldl_max_mem xs (max a x') x h2

/-- A left `max`-fold is the initial value or some list member. -/
theorem foldl_max_eq_init_or_mem :
    ∀ (l : List ℚ) (a : ℚ), l.foldl max a = a ∨ l.foldl max a ∈ l
  | [], _ => Or.inl rfl
  | x :: xs, a => by
    rcases foldl_max_eq_init_or_mem xs (max a x) with h | h
    · rcases max_cases a x with ⟨h1, _⟩ | ⟨h1, _⟩
      · exact Or.inl (by rw [List.foldl_cons, h, h1])
      · exact Or.inr (by
          rw [List.foldl_cons, h, h1]; exact List.mem_cons_self x xs)
    · exact Or.inr (List.mem_cons_of_mem x h)

/-- On a non-empty list, `listMin` is a lower bound. -/
theorem listMin_le {l : List ℚ} {x : ℚ} (hx : x ∈ l) : listMin l ≤ x := by
  cases l with
  | nil => cases hx
  | cons y ys =>
    rcases List.mem_cons.mp hx with h | h
    · exact h ▸ foldl_min_le_init ys y
    · exact foldl_min_le_mem ys y x h

/-- On a non-empty list, `listMin` is attained by a member. -/
theorem listMin_mem {l : List ℚ} (h : l ≠ []) : listMin l ∈ l := by
  cases l with
  | nil => exact absurd rfl h
  | cons y ys =>
    rcases foldl_min_eq_init_or_mem ys y with h1 | h1
    · simp only [listMin, h1]
      exact List.mem_cons_self y ys
    · exact List.mem_cons_of_mem y h1

/-- On a non-empty list, `listMax` is an upper bound. -/
theorem le_listMax {l : List ℚ} {x : ℚ} (hx : x ∈ l) : x ≤ listMax l := by
  cases l with
  | nil => cases hx
  | cons y ys =>
    rcases List.mem_cons.mp hx with h | h
    · exact h ▸ le_foldl_max_init ys y
    · exact le_foldl_max_mem ys y x h

/-- On a non-empty list, `listMax` is attained by a member. -/
theorem listMax_mem {l : List ℚ} (h : l ≠ []) : listMax l ∈ l := by
  cases l with
  | nil => exact absurd rfl h
  | cons y ys =>
    rcases foldl_max_eq_init_or_mem ys y with h1 | h1
    · simp only [listMax, h1]
      exact List.mem_cons_self y ys
    · exact List.mem_cons_of_mem y h1

/-- C5: the board-extent computation returns nothing on the empty point
stream; on every non-empty stream it returns a record whose `min_x`,
`max_x`, `min_y`, `max_y` bound every point's coordinates and are
attained by some point, with `width = max_x - min_x` and
`height = max_y - min_y`; the `command` field plays no role (changing it
pointwise leaves the result unchanged); concretely, the points
`(0,0),(10,0),(10,5),(0,5)` yield
`{min_x:0, max_x:10, min_y:0, max_y:5, width:10, height:5}`. -/
theorem C5_board_extent (coords : List GerberParse.GerberCoordinate)
    (h : coords ≠ []) :
    GerberParse.calculate_dimensions [] = none ∧
    (∃ d, GerberParse.calculate_dimensions coords = some d ∧
      (∀ c ∈ coords,
        d.min_x ≤ c.x ∧ c.x ≤ d.max_x ∧ d.min_y ≤ c.y ∧ c.y ≤ d.max_y) ∧
      (∃ c ∈ coords, c.x = d.min_x) ∧ (∃ c ∈ coords, c.x = d.max_x) ∧
      (∃ c ∈ coords, c.y = d.min_y) ∧ (∃ c ∈ coords, c.y = d.max_y) ∧
      d.width = d.max_x - d.min_x ∧ d.height = d.max_y - d.min_y) ∧
    (∀ f : GerberParse.GerberCoordinate → String,
      GerberParse.calculate_dimensions
        (coords.map (fun c => ⟨c.x, c.y, f c⟩)) =
        GerberParse.calculate_dimensions coords) ∧
    GerberParse.calculate_dimensions
        [⟨0, 0, "MOVE"⟩, ⟨10, 0, "DRAW"⟩, ⟨10, 5, "DRAW"⟩, ⟨0, 5, "DRAW"⟩] =
      some ⟨0, 10, 0, 5, 10, 5⟩ := by
  have hxne : coords.map (·.x) ≠ [] := by
    simpa using h
  have hyne : coords.map (·.y) ≠ [] := by
    simpa using h
  refine ⟨rfl,
    ⟨⟨listMin (coords.map (·.x)), listMax (coords.map (·.x)),
      listMin (coords.map (·.y)), listMax (coords.map (·.y)),
      listMax (coords.map (·.x)) - listMin (coords.map (·.x)),
      listMax (coords.map (·.y)) - listMin (coords.map (·.y))⟩,
      ?_, ?_, ?_, ?_, ?_, ?_, rfl, rfl⟩, ?_, ?_⟩
  · rw [GerberParse.calculate_dimensions, if_neg h]
  · intro c hc
    exact ⟨listMin_le (List.mem_map_of_mem _ hc),
      le_listMax (List.mem_map_of_mem _ hc),
      listMin_le (List.mem_map_of_mem _ hc),
      le_listMax (List.mem_map_of_mem _ hc)⟩
  · rcases List.mem_map.mp (listMin_mem hxne) with ⟨c, hc, hcx⟩
    exact ⟨c, hc, hcx⟩
  · rcases List.mem_map.mp (listMax_mem hxne) with ⟨c, hc, hcx⟩
    exact ⟨c, hc, hcx⟩
  · rcases List.mem_map.mp (listMin_mem hyne) with ⟨c, hc, hcy⟩
    exact ⟨c, hc, hcy⟩
  · rcases List.mem_map.mp (listMax_mem hyne) with ⟨c, hc, hcy⟩
    exact ⟨c, hc, hcy⟩
  · intro f
    have hne2 : coords.map
        (fun c => (⟨c.x, c.y, f c⟩ : GerberParse.GerberCoordinate)) ≠ [] := by
      simpa using h
    rw [GerberParse.calculate_dimensions, if_neg hne2,
      GerberParse.calculate_dimensions, if_neg h]
    simp [List.map_map, Function.comp_def]
  · rw [GerberParse.calculate_dimensions, if_neg (by simp)]
    norm_num [listMin, listMax]

/-- Witness for C5 at the four concrete corner points of Scenario C. -/
theorem C5_board_extent_witness :
    GerberParse.calculate_dimensions
        [⟨0, 0, "MOVE"⟩, ⟨10, 0, "DRAW"⟩, ⟨10, 5, "DRAW"⟩, ⟨0, 5, "DRAW"⟩] =
      some ⟨0, 10, 0, 5, 10, 5⟩ :=
  (C5_board_extent
    [⟨0, 0, "MOVE"⟩, ⟨10, 0, "DRAW"⟩, ⟨10, 5, "DRAW"⟩, ⟨0, 5, "DRAW"⟩]
    (by simp)).2.2.2

/-- C1: the claim fails on the code.  With the ordered points `(0,0)`,
`(4,0)`, `(8,0)` and threshold 5 mm, index 1 joins the cluster seeded at
index 0, and point 2 lies 4 mm from member 1 (`close` holds), yet the
absorption scan does not add index 2: the source computes the distance
from the seed `elem` only (`cluster_elem`, the innermost loop variable,
never occurs in the distance expression), contradicting the comment
"Check distance to any element in cluster" directly above it.
Consequently the retained cluster list is empty (the seed-only cluster
has only 2 members), where chain absorption would have produced one
cluster of 3. -/
theorem C1_seed_only_absorption :
    GTO.close ⟨4, 0, "draw", "01"⟩ ⟨8, 0, "draw", "01"⟩ = true ∧
    (GTO.buildCluster
        [⟨0, 0, "draw", "01"⟩, ⟨4, 0, "draw", "01"⟩, ⟨8, 0, "draw", "01"⟩]
        ⟨0, 0, "draw", "01"⟩ [1, 2] [⟨0, 0, "draw", "01"⟩] [0]).1 =
      [⟨0, 0, "draw", "01"⟩, ⟨4, 0, "draw", "01"⟩] ∧
    GTO.clustersOf
        [⟨0, 0, "draw", "01"⟩, ⟨4, 0, "draw", "01"⟩, ⟨8, 0, "draw", "01"⟩] =
      [] := by
  have h12 : GTO.close (⟨0, 0, "draw", "01"⟩ : GTO.DrawingElement)
      ⟨4, 0, "draw", "01"⟩ = true := by
    simp only [GTO.close]
    norm_num
  have h13 : GTO.close (⟨0, 0, "draw", "01"⟩ : GTO.DrawingElement)
      ⟨8, 0, "draw", "01"⟩ = false := by
    simp only [GTO.close]
    norm_num
  have h23 : GTO.close (⟨4, 0, "draw", "01"⟩ : GTO.DrawingElement)
      ⟨8, 0, "draw", "01"⟩ = true := by
    simp only [GTO.close]
    norm_num
  refine ⟨h23, ?_, ?_⟩
  · simp [GTO.buildCluster, h12, h13]
  · have hr1 : List.range' 1 2 = [1, 2] := rfl
    have hr2 : List.range' 2 1 = [2] := rfl
    have hr3 : List.range' 3 0 = [] := rfl
    simp [GTO.clustersOf, GTO.clusterLoop, GTO.buildCluster,
      hr1, hr2, hr3, h12, h13]

/-- Every cluster the outer loop appends has more than 2 members, so the
invariant propagates from the accumulator to the final cluster list. -/
theorem clusterLoop_length_invariant (elems : List GTO.DrawingElement) :
    ∀ (is used : List ℕ) (acc : List (List GTO.DrawingElement)),
      (∀ c ∈ acc, 2 < c.length) →
      ∀ c ∈ GTO.clusterLoop elems is used acc, 2 < c.length := by
  intro is
  induction is with
  | nil =>
    intro used acc hacc c hc
    rw [GTO.clusterLoop] at hc
    exact hacc c hc
  | cons i is ih =>
    intro used acc hacc c hc
    simp only [GTO.clusterLoop] at hc
    by_cases hmem : i ∈ used
    · rw [if_pos hmem] at hc
      exact ih used acc hacc c hc
    · rw [if_neg hmem] at hc
      by_cases hlen :
          (GTO.buildCluster elems (elems.getD i default)
            (List.range' (i + 1) (elems.length - (i + 1)))
            [elems.getD i default] (i :: used)).1.length > 2
      · rw [if_pos hlen] at hc
        refine ih _ _ ?_ c hc
        intro c' hc'
        rcases List.mem_append.mp hc' with h | h
        · exact hacc c' h
        · rw [List.mem_singleton.mp h]
          exact hlen
      · rw [if_neg hlen] at hc
        exact ih _ _ hacc c hc

/-- C4: every retained cluster has at least 3 members (so a grouping of
at most 2 points contributes nothing), the summarizer emits exactly one
label per retained cluster, and an input of exactly 3 mutually-close
points yields the single retained cluster of all 3 and exactly one
label. -/
theorem C4_cardinality_gate (elems : List GTO.DrawingElement)
    (e1 e2 e3 : GTO.DrawingElement)
    (h12 : (e1.x - e2.x) ^ 2 + (e1.y - e2.y) ^ 2 < 25)
    (h13 : (e1.x - e3.x) ^ 2 + (e1.y - e3.y) ^ 2 < 25)
    (_h23 : (e2.x - e3.x) ^ 2 + (e2.y - e3.y) ^ 2 < 25) :
    (∀ c ∈ GTO.clustersOf elems, 2 < c.length) ∧
    (GTO.cluster_elements elems).length = (GTO.clustersOf elems).length ∧
    GTO.clustersOf [e1, e2, e3] = [[e1, e2, e3]] ∧
    (GTO.cluster_elements [e1, e2, e3]).length = 1 := by
  have hclose12 : GTO.close e1 e2 = true := by
    simp only [GTO.close]
    exact decide_eq_true h12
  have hclose13 : GTO.close e1 e3 = true := by
    simp only [GTO.close]
    exact decide_eq_true h13
  have hthree : GTO.clustersOf [e1, e2, e3] = [[e1, e2, e3]] := by
    have hr1 : List.range' 1 2 = [1, 2] := rfl
    have hr2 : List.range' 2 1 = [2] := rfl
    have hr3 : List.range' 3 0 = [] := rfl
    simp [GTO.clustersOf, GTO.clusterLoop, GTO.buildCluster,
      hr1, hr2, hr3, hclose12, hclose13]
  refine ⟨clusterLoop_length_invariant elems _ _ _ (by simp), ?_, hthree, ?_⟩
  · simp [GTO.cluster_elements]
  · simp [GTO.cluster_elements, hthree]

/-- Witness for C4 at the concrete mutually-close points `(0,0)`,
`(1,0)`, `(0,1)`. -/
theorem C4_cardinality_gate_witness :
    GTO.clustersOf
        [⟨0, 0, "draw", "01"⟩, ⟨1, 0, "draw", "01"⟩, ⟨0, 1, "draw", "01"⟩] =
      [[⟨0, 0, "draw", "01"⟩, ⟨1, 0, "draw", "01"⟩, ⟨0, 1, "draw", "01"⟩]] :=
  (C4_cardinality_gate []
    ⟨0, 0, "draw", "01"⟩ ⟨1, 0, "draw", "01"⟩ ⟨0, 1, "draw", "01"⟩
    (by norm_num) (by norm_num) (by norm_num)).2.2.1

/-- C6 counterexample: the caller-visible outcome of `parse` is its
boolean return value, and that value is `False` both for an unreadable
file and for a readable file from which nothing is extracted (here a
file consisting of the single directive line `"%MOMM*"`), in both
parsers — the two situations are not distinguishable to the caller, in
contradiction with the claim. -/
theorem C6_outcome_not_distinct :
    GerberParse.parse none = false ∧
    GerberParse.parse (some ["%MOMM*"]) = false ∧
    GTO.parse none = false ∧
    GTO.parse (some ["%MOMM*"]) = false := by
  refine ⟨rfl, by decide, rfl, ?_⟩
  have h : (GTO.parseLines ["%MOMM*"]).drawing_elements = [] := rfl
  have h0 : GTO.clustersOf [] = [] := rfl
  simp [GTO.parse, GTO.cluster_elements, h, h0]

/-- C6 amended: an I/O failure makes `parse` return `False` with no
partial result, and an empty extraction result (no coordinates in the
outline parser, no retained cluster in the silkscreen parser) also makes
`parse` return `False` — the two outcomes coincide rather than being
distinct. -/
theorem C6_false_iff_empty_or_io :
    GerberParse.parse none = false ∧
    (∀ lines, GerberParse.parse (some lines) = false ↔
      (GerberParse.parseLines lines).coordinates = []) ∧
    GTO.parse none = false ∧
    (∀ lines, GTO.parse (some lines) = false ↔
      GTO.cluster_elements (GTO.parseLines lines).drawing_elements = []) := by
  refine ⟨rfl, ?_, rfl, ?_⟩
  · intro lines
    simp [GerberParse.parse, List.isEmpty_iff]
  · intro lines
    simp [GTO.parse, List.length_eq_zero]

/-- A line cannot start with both the inch marker and the millimeter
marker: the two differ at their fourth character. -/
theorem lead_MOIN_not_MOMM (l : List Char)
    (h : charsLeadWith "%MOIN".data l = true) :
    charsLeadWith "%MOMM".data l = false := by
  have hd : "%MOIN".data = ['%', 'M', 'O', 'I', 'N'] := rfl
  have hd2 : "%MOMM".data = ['%', 'M', 'O', 'M', 'M'] := rfl
  rw [hd] at h
  rw [hd2]
  rcases l with _ | ⟨c1, l⟩
  · simp [charsLeadWith] at h
  rcases l with _ | ⟨c2, l⟩
  · simp [charsLeadWith] at h
  rcases l with _ | ⟨c3, l⟩
  · simp [charsLeadWith] at h
  rcases l with _ | ⟨c4, l⟩
  · simp [charsLeadWith] at h
  simp only [charsLeadWith, Bool.and_eq_true, beq_iff_eq] at h ⊢
  rcases h with ⟨h1, h2, h3, h4, -⟩
  subst h1 h2 h3 h4
  simp

/-- C7 counterexample: in the silkscreen parser the unit changes on a
line that merely CONTAINS the marker — the line `"G04 %MOMM*"` does not
begin with either marker, yet the silkscreen unit step switches the unit
from inch to millimeter. -/
theorem C7_containment_counterexample :
    GTO.unitUpdate "G04 %MOMM*" "INCH" = "MM" ∧
    charsLeadWith "%MOMM".data "G04 %MOMM*".data = false ∧
    charsLeadWith "%MOIN".data "G04 %MOMM*".data = false :=
  ⟨rfl, rfl, rfl⟩

/-- C7 amended: in the outline parser the unit becomes inch (resp.
millimeter) exactly when the stripped line begins with `%MOIN` (resp.
`%MOMM`) and is otherwise unchanged; in the silkscreen parser the unit
becomes inch when the line contains `%MOIN` anywhere, millimeter when it
contains `%MOMM` anywhere (and not `%MOIN`), and is otherwise
unchanged. -/
theorem C7_unit_update_rules (line u : String) :
    (charsLeadWith "%MOIN".data line.data = true →
      GerberParse.unitUpdate line u = "INCH") ∧
    (charsLeadWith "%MOMM".data line.data = true →
      GerberParse.unitUpdate line u = "MM") ∧
    (charsLeadWith "%MOIN".data line.data = false →
      charsLeadWith "%MOMM".data line.data = false →
      GerberParse.unitUpdate line u = u) ∧
    (charsContain "%MOIN".data line.data = true →
      GTO.unitUpdate line u = "INCH") ∧
    (charsContain "%MOIN".data line.data = false →
      charsContain "%MOMM".data line.data = true →
      GTO.unitUpdate line u = "MM") ∧
    (charsContain "%MOIN".data line.data = false →
      charsContain "%MOMM".data line.data = false →
      GTO.unitUpdate line u = u) := by
  refine ⟨?_, ?_, ?_, ?_, ?_, ?_⟩
  · intro h
    simp [GerberParse.unitUpdate, h]
  · intro h
    have hnotin : charsLeadWith "%MOIN".data line.data = false := by
      cases hc : charsLeadWith "%MOIN".data line.data
      · rfl
      · rw [lead_MOIN_not_MOMM line.data hc] at h
        exact absurd h (by simp)
    simp [GerberParse.unitUpdate, h, hnotin]
  · intro h1 h2
    simp [GerberParse.unitUpdate, h1, h2]
  · intro h
    simp [GTO.unitUpdate, h]
  · intro h1 h2
    simp [GTO.unitUpdate, h1, h2]
  · intro h1 h2
    simp [GTO.unitUpdate, h1, h2]

/-- Witness for C7 (amended) at the concrete line `"%MOIN*"`. -/
theorem C7_unit_update_rules_witness :
    GerberParse.unitUpdate "%MOIN*" "MM" = "INCH" :=
  (C7_unit_update_rules "%MOIN*" "MM").1 (by decide)

/-- Spec-side description of the expected `%FSLAX` digit-group shape:
the marker followed by two digits, the letter `Y`, and two digits. -/
def FSLAXShape (line : String) : Prop :=
  ∃ (a b c d : Char) (rest : List Char),
    a.isDigit ∧ b.isDigit ∧ c.isDigit ∧ d.isDigit ∧
    line.data = '%' :: 'F' :: 'S' :: 'L' :: 'A' :: 'X' ::
      a :: b :: 'Y' :: c :: d :: rest

/-- C8: a line that begins with `%FSLAX` but whose digit groups do not
match the expected shape is silently ignored by both parsers — the
directive step is total (no error path) and leaves the parser state,
including the previously effective format digits, unchanged. -/
theorem C8_malformed_fslax_ignored (line : String)
    (hstart : charsLeadWith "%FSLAX".data line.data = true)
    (hbad : ¬ FSLAXShape line) :
    (∀ st : GerberParse.ParserState, GerberParse.fslaxUpdate line st = st) ∧
    (∀ st : GTO.GTOState, GTO.fslaxUpdate line st = st) := by
  have hnone : fslaxMatch line = none := by
    cases hm : fslaxMatch line with
    | none => rfl
    | some v =>
      exfalso
      apply hbad
      unfold fslaxMatch at hm
      split at hm
      · rename_i a b c d tail heq
        split at hm
        · rename_i hdig
          simp only [Bool.and_eq_true] at hdig
          exact ⟨a, b, c, d, tail,
            hdig.1.1.1, hdig.1.1.2, hdig.1.2, hdig.2, heq⟩
        · exact absurd hm (by simp)
      · exact absurd hm (by simp)
  constructor
  · intro st
    simp [GerberParse.fslaxUpdate, hstart, hnone]
  · intro st
    simp [GTO.fslaxUpdate, hstart, hnone]

/-- Witness for C8 at the concrete malformed directive `"%FSLAX2Y5"`
(only one digit in each group where two are expected). -/
theorem C8_malformed_fslax_ignored_witness :
    GerberParse.fslaxUpdate "%FSLAX2Y5" GerberParse.initState =
      GerberParse.initState :=
  (C8_malformed_fslax_ignored "%FSLAX2Y5" (by decide)
    (by
      intro h
      rcases h with ⟨a, b, c, d, rest, -, -, -, -, heq⟩
      have hdata : "%FSLAX2Y5".data =
          ['%', 'F', 'S', 'L', 'A', 'X', '2', 'Y', '5'] := rfl
      rw [hdata] at heq
      simp at heq)).1
    GerberParse.initState

/-- The sort comparison on text objects is transitive. -/
theorem textKeyLe_trans (a b c : GTO.TextObject)
    (hab : GTO.textKeyLe a b = true) (hbc : GTO.textKeyLe b c = true) :
    GTO.textKeyLe a c = true := by
  simp only [GTO.textKeyLe, Bool.or_eq_true, Bool.and_eq_true,
    decide_eq_true_eq] at hab hbc ⊢
  rcases hab with h | ⟨h1, h2⟩
  · rcases hbc with h' | ⟨h1', _⟩
    · exact Or.inl (lt_trans h h')
    · exact Or.inl (h.trans_eq h1')
  · rcases hbc with h' | ⟨h1', h2'⟩
    · exact Or.inl (h1.trans_lt h')
    · exact Or.inr ⟨h1.trans h1', le_trans h2 h2'⟩

/-- The sort comparison on text objects is total. -/
theorem textKeyLe_total (a b : GTO.TextObject) :
    (GTO.textKeyLe a b || GTO.textKeyLe b a) = true := by
  simp only [GTO.textKeyLe, Bool.or_eq_true, Bool.and_eq_true,
    decide_eq_true_eq]
  rcases lt_trichotomy a.x b.x with h | h | h
  · exact Or.inl (Or.inl h)
  · rcases le_total a.y b.y with h' | h'
    · exact Or.inl (Or.inr ⟨h, h'⟩)
    · exact Or.inr (Or.inr ⟨h.symm, h'⟩)
  · exact Or.inr (Or.inl h)

/-- The summarizer output is pairwise ordered by the `(x, y)` key. -/
theorem cluster_elements_sorted (elems : List GTO.DrawingElement) :
    List.Pairwise (fun a b => GTO.textKeyLe a b = true)
      (GTO.cluster_elements elems) :=
  List.sorted_mergeSort textKeyLe_trans textKeyLe_total
    ((GTO.clustersOf elems).map GTO.clusterToTextObject)

/-- Positional text assignment of `match_with_csv` below both lengths. -/
theorem match_with_csv_text_at (tos : List GTO.TextObject)
    (csv : List (String × ℚ × ℚ)) (i : ℕ)
    (h1 : i < tos.length) (h2 : i < csv.length) :
    ((GTO.match_with_csv tos csv).2.getD i default).text =
      (csv.getD i ("", 0, 0)).1 := by
  have hne1 : tos.isEmpty = false := by
    cases tos
    · simp at h1
    · rfl
  have hne2 : csv.isEmpty = false := by
    cases csv
    · simp at h2
    · rfl
  rw [GTO.match_with_csv, if_neg (by simp [hne1, hne2])]
  simp [List.getD_eq_getElem?_getD, List.getElem?_eq_getElem h1, h2]

/-- `match_with_csv` never changes the coordinate, size, rotation or
mirror fields, at any index. -/
theorem match_with_csv_preserves_fields (tos : List GTO.TextObject)
    (csv : List (String × ℚ × ℚ)) (j : ℕ) :
    ((GTO.match_with_csv tos csv).2.getD j default).x =
        (tos.getD j default).x ∧
    ((GTO.match_with_csv tos csv).2.getD j default).y =
        (tos.getD j default).y ∧
    ((GTO.match_with_csv tos csv).2.getD j default).size =
        (tos.getD j default).size ∧
    ((GTO.match_with_csv tos csv).2.getD j default).rotation =
        (tos.getD j default).rotation ∧
    ((GTO.match_with_csv tos csv).2.getD j default).mirrored =
        (tos.getD j default).mirrored := by
  rw [GTO.match_with_csv]
  by_cases hc : (tos.isEmpty || csv.isEmpty) = true
  · rw [if_pos hc]
    exact ⟨rfl, rfl, rfl, rfl, rfl⟩
  · rw [if_neg hc]
    by_cases hj : j < tos.length
    · simp only [List.getD_eq_getElem?_getD, List.getElem?_mapIdx,
        List.getElem?_eq_getElem hj, Option.map_some, Option.getD_some]
      by_cases hcs : j < csv.length
      · simp [hcs]
      · simp [hcs]
    · have hlen : tos.length ≤ j := le_of_not_lt hj
      simp [List.getD_eq_getElem?_getD,
        List.getElem?_eq_none (by simpa using hlen),
        List.getElem?_eq_none hlen]

/-- Beyond the external list, `match_with_csv` leaves `text`
untouched. -/
theorem match_with_csv_text_beyond (tos : List GTO.TextObject)
    (csv : List (String × ℚ × ℚ)) (j : ℕ) (hj : csv.length ≤ j) :
    ((GTO.match_with_csv tos csv).2.getD j default).text =
      (tos.getD j default).text := by
  rw [GTO.match_with_csv]
  by_cases hc : (tos.isEmpty || csv.isEmpty) = true
  · rw [if_pos hc]
  · rw [if_neg hc]
    by_cases hjl : j < tos.length
    · simp [List.getD_eq_getElem?_getD, List.getElem?_mapIdx,
        List.getElem?_eq_getElem hjl, not_lt.mpr hj]
    · have hlen : tos.length ≤ j := le_of_not_lt hjl
      simp [List.getD_eq_getElem?_getD,
        List.getElem?_eq_none (by simpa using hlen),
        List.getElem?_eq_none hlen]

/-- Every summarizer label carries the placeholder text rendering its
own centroid coordinates. -/
theorem cluster_elements_text_encodes_centroid
    (elems : List GTO.DrawingElement) :
    ∀ t ∈ GTO.cluster_elements elems,
      t.text = GTO.posPlaceholder t.x t.y := by
  intro t ht
  rw [GTO.cluster_elements, List.mem_mergeSort] at ht
  rcases List.mem_map.mp ht with ⟨c, -, rfl⟩
  rfl

/-- C9: the summarizer output is sorted ascending by the `(x_mm, y_mm)`
key, and when an external designator-name list is supplied, the i-th
label of the matched output has its text set to the i-th external name
for every index below both lengths — assignment is by list position; the
external coordinates play no role. -/
theorem C9_positional_assignment (elems : List GTO.DrawingElement)
    (csv : List (String × ℚ × ℚ)) (i : ℕ)
    (h1 : i < (GTO.cluster_elements elems).length)
    (h2 : i < csv.length) :
    List.Pairwise (fun a b => GTO.textKeyLe a b = true)
      (GTO.cluster_elements elems) ∧
    ((GTO.match_with_csv (GTO.cluster_elements elems) csv).2.getD i
        default).text =
      (csv.getD i ("", 0, 0)).1 :=
  ⟨cluster_elements_sorted elems,
    match_with_csv_text_at (GTO.cluster_elements elems) csv i h1 h2⟩

/-- C10: external matching mutates only the `text` field — length and all
coordinate, size, rotation and mirror fields are identical before and
after at every index — and a label at an index at or beyond the external
list's length keeps its synthetic placeholder text, which renders its
centroid coordinates. -/
theorem C10_match_frame (elems : List GTO.DrawingElement)
    (csv : List (String × ℚ × ℚ)) (i : ℕ)
    (hlen : i < (GTO.cluster_elements elems).length)
    (hcsv : csv.length ≤ i) :
    (GTO.match_with_csv (GTO.cluster_elements elems) csv).2.length =
        (GTO.cluster_elements elems).length ∧
    (∀ j : ℕ,
      ((GTO.match_with_csv (GTO.cluster_elements elems) csv).2.getD j
          default).x = ((GTO.cluster_elements elems).getD j default).x ∧
      ((GTO.match_with_csv (GTO.cluster_elements elems) csv).2.getD j
          default).y = ((GTO.cluster_elements elems).getD j default).y ∧
      ((GTO.match_with_csv (GTO.cluster_elements elems) csv).2.getD j
          default).size =
        ((GTO.cluster_elements elems).getD j default).size ∧
      ((GTO.match_with_csv (GTO.cluster_elements elems) csv).2.getD j
          default).rotation =
        ((GTO.cluster_elements elems).getD j default).rotation ∧
      ((GTO.match_with_csv (GTO.cluster_elements elems) csv).2.getD j
          default).mirrored =
        ((GTO.cluster_elements elems).getD j default).mirrored) ∧
    ((GTO.match_with_csv (GTO.cluster_elements elems) csv).2.getD i
        default).text =
      ((GTO.cluster_elements elems).getD i default).text ∧
    ((GTO.cluster_elements elems).getD i default).text =
      GTO.posPlaceholder
        ((GTO.cluster_elements elems).getD i default).x
        ((GTO.cluster_elements elems).getD i default).y := by
  refine ⟨?_, fun j => match_with_csv_preserves_fields _ csv j,
    match_with_csv_text_beyond _ csv i hcsv, ?_⟩
  · rw [GTO.match_with_csv]
    by_cases hc :
        ((GTO.cluster_elements elems).isEmpty || csv.isEmpty) = true
    · rw [if_pos hc]
    · rw [if_neg hc]
      simp
  · apply cluster_elements_text_encodes_centroid
    rw [List.getD_eq_getElem?_getD, List.getElem?_eq_getElem hlen]
    exact List.getElem_mem hlen

/-- Concrete evaluation used by witnesses: the three mutually-close
points `(0,0)`, `(1,0)`, `(0,1)` produce exactly one label. -/
theorem cluster_elements_three_concrete :
    (GTO.cluster_elements
      [⟨0, 0, "draw", "01"⟩, ⟨1, 0, "draw", "01"⟩,
        ⟨0, 1, "draw", "01"⟩]).length = 1 := by
  have h12 : GTO.close (⟨0, 0, "draw", "01"⟩ : GTO.DrawingElement)
      ⟨1, 0, "draw", "01"⟩ = true := by
    simp only [GTO.close]
    norm_num
  have h13 : GTO.close (⟨0, 0, "draw", "01"⟩ : GTO.DrawingElement)
      ⟨0, 1, "draw", "01"⟩ = true := by
    simp only [GTO.close]
    norm_num
  have hr1 : List.range' 1 2 = [1, 2] := rfl
  have hr2 : List.range' 2 1 = [2] := rfl
  have hr3 : List.range' 3 0 = [] := rfl
  have hcl : GTO.clustersOf
      [⟨0, 0, "draw", "01"⟩, ⟨1, 0, "draw", "01"⟩, ⟨0, 1, "draw", "01"⟩] =
      [[⟨0, 0, "draw", "01"⟩, ⟨1, 0, "draw", "01"⟩, ⟨0, 1, "draw", "01"⟩]] := by
    simp [GTO.clustersOf, GTO.clusterLoop, GTO.buildCluster,
      hr1, hr2, hr3, h12, h13]
  simp [GTO.cluster_elements, hcl]

/-- Witness for C9: the first (and only) label of the three-point input,
matched against the one-entry external list `[("R1", 5, 5)]`, carries
the text `"R1"`. -/
theorem C9_positional_assignment_witness :
    ((GTO.match_with_csv
        (GTO.cluster_elements
          [⟨0, 0, "draw", "01"⟩, ⟨1, 0, "draw", "01"⟩,
            ⟨0, 1, "draw", "01"⟩])
        [("R1", 5, 5)]).2.getD 0 default).text = "R1" :=
  (C9_positional_assignment
    [⟨0, 0, "draw", "01"⟩, ⟨1, 0, "draw", "01"⟩, ⟨0, 1, "draw", "01"⟩]
    [("R1", 5, 5)] 0
    (by rw [cluster_elements_three_concrete]; exact Nat.zero_lt_one)
    (by decide)).2

/-- Witness for C10: with an empty external list, the only label of the
three-point input keeps its text. -/
theorem C10_match_frame_witness :
    ((GTO.match_with_csv
        (GTO.cluster_elements
          [⟨0, 0, "draw", "01"⟩, ⟨1, 0, "draw", "01"⟩,
            ⟨0, 1, "draw", "01"⟩])
        []).2.getD 0 default).text =
      ((GTO.cluster_elements
          [⟨0, 0, "draw", "01"⟩, ⟨1, 0, "draw", "01"⟩,
            ⟨0, 1, "draw", "01"⟩]).getD 0 default).text :=
  (C10_match_frame
    [⟨0, 0, "draw", "01"⟩, ⟨1, 0, "draw", "01"⟩, ⟨0, 1, "draw", "01"⟩]
    [] 0
    (by rw [cluster_elements_three_concrete]; exact Nat.zero_lt_one)
    (by decide)).2.2.1

end PCBSpec
